import Mathlib

/-!
Verification development for the `findrefs` / `refs` schema modules
(`src/findrefs/models.py`, `src/refs/models.py`,
`src/findrefs/migrations/0001_initial.py`).

The repository is a declarative ORM schema: six primary registries
(Reference, ClinicalTrial, Biosample, Patient, Medication, Treatment),
six artifact link tables, and the constraints written in the field
declarations (NOT NULL, unique, unique_together, choices, max_length,
foreign-key delete policies CASCADE / PROTECT).

We embed each model class as a structure whose fields are the Python-level
values of the declared columns (a nullable column, or a column whose default
is `None`, becomes `Option`); external entities referenced only by foreign
key (Artifact, Feature, Ethnicity, User, Run, ...) are identifier `Nat`s.
A database state is the contents of the tables declared here plus the sets
of ids of the external entities.  Save/delete/update operations perform the
checks the field declarations induce and return `Except SaveError DBState`.
-/

/-! ### External id generation (modelled from the spec)

`Modelled from the spec:` the id-generation utilities used as column
defaults (`lnschema_core.ids.base62_12`, `lnschema_core.ids.base62_8`,
`bionty.ids.ontology`) live outside this repository.  Per the spec they
produce fixed-length random base62 strings (8 or 12 characters depending on
entity); we model randomness as a `Nat` seed. -/

def base62Alphabet : List Char :=
  "0123456789ABCDEFGHIJKLMNOPQRSTUVWXYZabcdefghijklmnopqrstuvwxyz".toList

def base62Char (n : Nat) : Char :=
  base62Alphabet.getD (n % 62) '0'

def base62String (len seed : Nat) : String :=
  String.mk ((List.range len).map (fun i => base62Char (seed / 62 ^ i)))

def base62_12 (seed : Nat) : String := base62String 12 seed

def base62_8 (seed : Nat) : String := base62String 8 seed

/-- `Modelled from the spec:` `bionty.ids.ontology`, the default uid
generator of `Medication.uid` (max_length=8), also yields a fixed-length
8-character base62 string. -/
def bionty_ontology (seed : Nat) : String := base62String 8 seed

/-! ### The DOI pattern named by the spec

This definition follows the spec's words, not the source (the source of
this schema version declares `doi` as a plain CharField): it is used to
state the claim about DOI validation.  The pattern is
`^(?:https?://(?:dx\.)?doi\.org/|doi:|DOI:)?10\.\d+/.*$`. -/

def doiHeads : List String :=
  ["https://doi.org/", "http://doi.org/",
   "https://dx.doi.org/", "http://dx.doi.org/", "doi:", "DOI:"]

/-- If `p` is a leading run of `s`, return the remainder of `s`. -/
def dropLit : List Char → List Char → Option (List Char)
  | [], s => some s
  | _ :: _, [] => none
  | a :: p, b :: s => if a = b then dropLit p s else none

/-- The mandatory part `10\.\d+/.*` of the DOI pattern. -/
def doiCore (cs : List Char) : Bool :=
  match dropLit "10.".toList cs with
  | none => false
  | some rest =>
    decide (rest.takeWhile Char.isDigit ≠ []) &&
      decide ((rest.dropWhile Char.isDigit).head? = some '/')

def doiRegexAccepts (s : String) : Bool :=
  doiCore s.toList ||
    doiHeads.any (fun p => (dropLit p.toList s.toList).elim false doiCore)

/-! ### Record structures (one per model class of the source) -/

/-- `findrefs.models.Reference`: fields as declared in the class body.
Mixin columns (`created_at` ..., `created_by`, `run`) are declared in the
external `lnschema_core` base classes and carry no claimed constraint. -/
structure Reference where
  id : Nat := 0
  uid : String
  name : Option String := none
  abbr : Option String := none
  url : Option String := none
  pubmed_id : Option Int := none
  doi : Option String := none
  description : Option String := none
  authors : Option (List String) := none
  abstract : Option String := none
  full_text : Option String := none
  published_at : Option Nat := none
  deriving DecidableEq

/-- `refs.models.ClinicalTrial`. -/
structure ClinicalTrial where
  id : Nat := 0
  uid : String
  name : Option String := none
  title : Option String := none
  objective : Option String := none
  description : Option String := none
  deriving DecidableEq

/-- `refs.models.Biosample`.  Note `name` is declared `null=True` in the
source, unlike the other registries. -/
structure Biosample where
  id : Nat := 0
  uid : String
  name : Option String := none
  batch : Option String := none
  description : Option String := none
  patient : Option Nat := none
  clinical_trial : Option Nat := none
  deriving DecidableEq

/-- `refs.models.Patient`. -/
structure Patient where
  id : Nat := 0
  uid : String
  name : Option String := none
  age : Option Int := none
  gender : Option String := none
  ethnicity : Option Nat := none
  birth_date : Option Nat := none
  deceased : Option Bool := none
  deceased_date : Option Nat := none
  deriving DecidableEq

/-- `refs.models.Medication`.  `name` has no `default=None` and no
`null=True` in the source: the Python-level value of an omitted name is the
CharField default `""`, rejected at validation (blank); dates/floats of
other registries do not occur here. -/
structure Medication where
  id : Nat := 0
  uid : String
  name : String := ""
  ontology_id : Option String := none
  chembl_id : Option String := none
  abbr : Option String := none
  synonyms : Option String := none
  description : Option String := none
  deriving DecidableEq

/-- `refs.models.Treatment`.  `dosage` is a FloatField; floating point is
not modelled, we embed the numeric value as `Rat` (no claim touches it). -/
structure Treatment where
  id : Nat := 0
  uid : String
  name : Option String := none
  status : Option String := none
  medication : Option Nat := none
  dosage : Option Rat := none
  dosage_unit : Option String := none
  administered_datetime : Option Nat := none
  duration : Option Nat := none
  route : Option String := none
  site : Option String := none
  deriving DecidableEq

/-! ### Link tables (`Artifact<X>` classes).  Each holds a CASCADE foreign
key to the external Artifact, a PROTECT foreign key to the primary entity,
an optional PROTECT foreign key to Feature, and two nullable booleans. -/

/-- `findrefs.models.ArtifactReference`. -/
structure ArtifactReference where
  id : Nat := 0
  artifact : Nat
  reference : Nat
  feature : Option Nat := none
  label_ref_is_name : Option Bool := none
  feature_ref_is_name : Option Bool := none
  deriving DecidableEq

/-- `refs.models.ArtifactClinicalTrial`. -/
structure ArtifactClinicalTrial where
  id : Nat := 0
  artifact : Nat
  clinicaltrial : Nat
  feature : Option Nat := none
  label_ref_is_name : Option Bool := none
  feature_ref_is_name : Option Bool := none
  deriving DecidableEq

/-- `refs.models.ArtifactBiosample`. -/
structure ArtifactBiosample where
  id : Nat := 0
  artifact : Nat
  biosample : Nat
  feature : Option Nat := none
  label_ref_is_name : Option Bool := none
  feature_ref_is_name : Option Bool := none
  deriving DecidableEq

/-- `refs.models.ArtifactPatient`. -/
structure ArtifactPatient where
  id : Nat := 0
  artifact : Nat
  patient : Nat
  feature : Option Nat := none
  label_ref_is_name : Option Bool := none
  feature_ref_is_name : Option Bool := none
  deriving DecidableEq

/-- `refs.models.ArtifactMedication`. -/
structure ArtifactMedication where
  id : Nat := 0
  artifact : Nat
  medication : Nat
  feature : Option Nat := none
  label_ref_is_name : Option Bool := none
  feature_ref_is_name : Option Bool := none
  deriving DecidableEq

/-- `refs.models.ArtifactTreatment`. -/
structure ArtifactTreatment where
  id : Nat := 0
  artifact : Nat
  treatment : Nat
  feature : Option Nat := none
  label_ref_is_name : Option Bool := none
  feature_ref_is_name : Option Bool := none
  deriving DecidableEq

/-! ### Choice sets (from the source, value part of the (value, label) pairs) -/

/-- `Patient.GENDER_CHOICES` (src/refs/models.py lines 147-152). -/
def GENDER_CHOICES : List (String × String) :=
  [("male", "Male"), ("female", "Female"), ("other", "Other"),
   ("unknown", "Unknown")]

/-- `Treatment.STATUS_CHOICES` (src/refs/models.py lines 296-304). -/
def STATUS_CHOICES : List (String × String) :=
  [("in-progress", "In Progress"), ("completed", "Completed"),
   ("entered-in-error", "Entered in Error"), ("stopped", "Stopped"),
   ("on-hold", "On Hold"), ("unknown", "Unknown"), ("not-done", "Not Done")]

/-! ### Per-row validation, induced by the field declarations:
required name (NOT NULL + blank), max_length bounds, choices. -/

def optLenLe (o : Option String) (n : Nat) : Bool :=
  match o with
  | none => true
  | some s => s.length ≤ n

def reqNameOk (o : Option String) (n : Nat) : Bool :=
  match o with
  | none => false
  | some s => decide (s ≠ "") && decide (s.length ≤ n)

def optChoiceOk (o : Option String) (choices : List (String × String)) : Bool :=
  match o with
  | none => true
  | some s => decide (s ∈ choices.map Prod.fst)

def referenceValid (r : Reference) : Bool :=
  reqNameOk r.name 255 && decide (r.uid.length ≤ 12) && optLenLe r.abbr 32 &&
    optLenLe r.url 255 && optLenLe r.doi 255

def clinicalTrialValid (r : ClinicalTrial) : Bool :=
  reqNameOk r.name 255 && decide (r.uid.length ≤ 8)

def biosampleValid (r : Biosample) : Bool :=
  optLenLe r.name 255 && decide (r.uid.length ≤ 12) && optLenLe r.batch 60

def patientValid (r : Patient) : Bool :=
  reqNameOk r.name 255 && decide (r.uid.length ≤ 12) &&
    optLenLe r.gender 10 && optChoiceOk r.gender GENDER_CHOICES

def medicationValid (r : Medication) : Bool :=
  decide (r.name ≠ "") && decide (r.name.length ≤ 256) &&
    decide (r.uid.length ≤ 8) && optLenLe r.ontology_id 32 &&
    optLenLe r.chembl_id 32 && optLenLe r.abbr 32

def treatmentValid (r : Treatment) : Bool :=
  reqNameOk r.name 255 && decide (r.uid.length ≤ 12) &&
    optLenLe r.status 16 && optChoiceOk r.status STATUS_CHOICES &&
    optLenLe r.dosage_unit 32 && optLenLe r.route 32 && optLenLe r.site 32

/-! ### Database state and schema-level wellformedness -/

/-- Contents of the tables declared by this repository, plus the id sets of
the external entities referenced only by foreign key.  `medication_parents`
is the auto-created through table of `Medication.parents` (pairs
`(child, parent)`); auto-created M2M join tables carry a uniqueness
constraint on the pair.  Plain M2M join tables to external entities
(collections, tissues, cell types, diseases) carry no claimed constraint
and are omitted. -/
structure DBState where
  nextId : Nat := 1
  artifacts : List Nat := []
  features : List Nat := []
  ethnicities : List Nat := []
  references : List Reference := []
  clinicaltrials : List ClinicalTrial := []
  biosamples : List Biosample := []
  patients : List Patient := []
  medications : List Medication := []
  treatments : List Treatment := []
  links_reference : List ArtifactReference := []
  links_clinicaltrial : List ArtifactClinicalTrial := []
  links_biosample : List ArtifactBiosample := []
  links_patient : List ArtifactPatient := []
  links_medication : List ArtifactMedication := []
  links_treatment : List ArtifactTreatment := []
  medication_parents : List (Nat × Nat) := []
  deriving DecidableEq

def emptyState : DBState := {}

/-- A nullable foreign key is intact: unset, or pointing at an existing id. -/
def optFkOk (o : Option Nat) (ids : List Nat) : Prop :=
  o = none ∨ ∃ x ∈ ids, o = some x

/-- Pairwise distinctness of a projection (e.g. a unique column). -/
def distinctOn {α β : Type} (f : α → β) (l : List α) : Prop :=
  l.Pairwise (fun a b => f a ≠ f b)

/-- SQL-style uniqueness of a nullable unique column: the constraint binds
only between rows whose value is non-null (NULLs are exempt). -/
def optDistinct {α : Type} (f : α → Option String) (l : List α) : Prop :=
  l.Pairwise (fun a b => ¬(f a ≠ none ∧ f a = f b))

/-- `Medication.Meta.unique_together = (("name", "ontology_id"),)` with a
nullable `ontology_id`: SQL exempts rows whose `ontology_id` is NULL. -/
def nameOntologyDistinct (l : List Medication) : Prop :=
  l.Pairwise (fun a b =>
    ¬(a.ontology_id ≠ none ∧ a.name = b.name ∧ a.ontology_id = b.ontology_id))

def wfReferences (s : DBState) : Prop :=
  (∀ r ∈ s.references, referenceValid r = true) ∧
    distinctOn Reference.id s.references ∧
    distinctOn Reference.uid s.references ∧
    optDistinct Reference.abbr s.references

def wfClinicalTrials (s : DBState) : Prop :=
  (∀ r ∈ s.clinicaltrials, clinicalTrialValid r = true) ∧
    distinctOn ClinicalTrial.id s.clinicaltrials ∧
    distinctOn ClinicalTrial.uid s.clinicaltrials

def wfBiosamples (s : DBState) : Prop :=
  (∀ r ∈ s.biosamples, biosampleValid r = true ∧
      optFkOk r.patient (s.patients.map Patient.id) ∧
      optFkOk r.clinical_trial (s.clinicaltrials.map ClinicalTrial.id)) ∧
    distinctOn Biosample.id s.biosamples ∧
    distinctOn Biosample.uid s.biosamples

def wfPatients (s : DBState) : Prop :=
  (∀ r ∈ s.patients, patientValid r = true ∧
      optFkOk r.ethnicity s.ethnicities) ∧
    distinctOn Patient.id s.patients ∧
    distinctOn Patient.uid s.patients

def wfMedications (s : DBState) : Prop :=
  (∀ r ∈ s.medications, medicationValid r = true) ∧
    distinctOn Medication.id s.medications ∧
    distinctOn Medication.uid s.medications ∧
    optDistinct Medication.abbr s.medications ∧
    nameOntologyDistinct s.medications

def wfTreatments (s : DBState) : Prop :=
  (∀ r ∈ s.treatments, treatmentValid r = true ∧
      optFkOk r.medication (s.medications.map Medication.id)) ∧
    distinctOn Treatment.id s.treatments ∧
    distinctOn Treatment.uid s.treatments

def wfLinksReference (s : DBState) : Prop :=
  (∀ L ∈ s.links_reference, L.artifact ∈ s.artifacts ∧
      L.reference ∈ s.references.map Reference.id ∧
      optFkOk L.feature s.features) ∧
    distinctOn ArtifactReference.id s.links_reference

def wfLinksClinicalTrial (s : DBState) : Prop :=
  (∀ L ∈ s.links_clinicaltrial, L.artifact ∈ s.artifacts ∧
      L.clinicaltrial ∈ s.clinicaltrials.map ClinicalTrial.id ∧
      optFkOk L.feature s.features) ∧
    distinctOn ArtifactClinicalTrial.id s.links_clinicaltrial

def wfLinksBiosample (s : DBState) : Prop :=
  (∀ L ∈ s.links_biosample, L.artifact ∈ s.artifacts ∧
      L.biosample ∈ s.biosamples.map Biosample.id ∧
      optFkOk L.feature s.features) ∧
    distinctOn ArtifactBiosample.id s.links_biosample

def wfLinksPatient (s : DBState) : Prop :=
  (∀ L ∈ s.links_patient, L.artifact ∈ s.artifacts ∧
      L.patient ∈ s.patients.map Patient.id ∧
      optFkOk L.feature s.features) ∧
    distinctOn ArtifactPatient.id s.links_patient

def wfLinksMedication (s : DBState) : Prop :=
  (∀ L ∈ s.links_medication, L.artifact ∈ s.artifacts ∧
      L.medication ∈ s.medications.map Medication.id ∧
      optFkOk L.feature s.features) ∧
    distinctOn ArtifactMedication.id s.links_medication

def wfLinksTreatment (s : DBState) : Prop :=
  (∀ L ∈ s.links_treatment, L.artifact ∈ s.artifacts ∧
      L.treatment ∈ s.treatments.map Treatment.id ∧
      optFkOk L.feature s.features) ∧
    distinctOn ArtifactTreatment.id s.links_treatment

def wfMedicationParents (s : DBState) : Prop :=
  (∀ p ∈ s.medication_parents, p.1 ∈ s.medications.map Medication.id ∧
      p.2 ∈ s.medications.map Medication.id) ∧
    s.medication_parents.Pairwise (fun a b => a ≠ b)

/-- Every schema-level constraint of the declared tables holds. -/
def wfState (s : DBState) : Prop :=
  wfReferences s ∧ wfClinicalTrials s ∧ wfBiosamples s ∧ wfPatients s ∧
    wfMedications s ∧ wfTreatments s ∧ wfLinksReference s ∧
    wfLinksClinicalTrial s ∧ wfLinksBiosample s ∧ wfLinksPatient s ∧
    wfLinksMedication s ∧ wfLinksTreatment s ∧ wfMedicationParents s

instance (o : Option Nat) (ids : List Nat) : Decidable (optFkOk o ids) := by
  unfold optFkOk
  infer_instance

instance {α β : Type} [DecidableEq β] (f : α → β) (l : List α) :
    Decidable (distinctOn f l) := by
  unfold distinctOn
  infer_instance

instance {α : Type} (f : α → Option String) (l : List α) :
    Decidable (optDistinct f l) := by
  unfold optDistinct
  infer_instance

instance (l : List Medication) : Decidable (nameOntologyDistinct l) := by
  unfold nameOntologyDistinct
  infer_instance

instance (s : DBState) : Decidable (wfReferences s) := by
  unfold wfReferences
  infer_instance

instance (s : DBState) : Decidable (wfClinicalTrials s) := by
  unfold wfClinicalTrials
  infer_instance

instance (s : DBState) : Decidable (wfBiosamples s) := by
  unfold wfBiosamples
  infer_instance

instance (s : DBState) : Decidable (wfPatients s) := by
  unfold wfPatients
  infer_instance

instance (s : DBState) : Decidable (wfMedications s) := by
  unfold wfMedications
  infer_instance

instance (s : DBState) : Decidable (wfTreatments s) := by
  unfold wfTreatments
  infer_instance

instance (s : DBState) : Decidable (wfLinksReference s) := by
  unfold wfLinksReference
  infer_instance

instance (s : DBState) : Decidable (wfLinksClinicalTrial s) := by
  unfold wfLinksClinicalTrial
  infer_instance

instance (s : DBState) : Decidable (wfLinksBiosample s) := by
  unfold wfLinksBiosample
  infer_instance

instance (s : DBState) : Decidable (wfLinksPatient s) := by
  unfold wfLinksPatient
  infer_instance

instance (s : DBState) : Decidable (wfLinksMedication s) := by
  unfold wfLinksMedication
  infer_instance

instance (s : DBState) : Decidable (wfLinksTreatment s) := by
  unfold wfLinksTreatment
  infer_instance

instance (s : DBState) : Decidable (wfMedicationParents s) := by
  unfold wfMedicationParents
  infer_instance

instance (s : DBState) : Decidable (wfState s) := by
  unfold wfState
  infer_instance

/-! ### Errors surfaced by save/delete operations -/

inductive SaveError where
  | validationError
  | notNullViolation
  | uniquenessConflict
  | fkViolation
  | protectedError
  | notFoundError
  deriving DecidableEq

def okOf (e : Except SaveError DBState) : Option DBState :=
  match e with
  | .ok s => some s
  | .error _ => none

def errOf (e : Except SaveError DBState) : Option SaveError :=
  match e with
  | .ok _ => none
  | .error x => some x

def saveOk (e : Except SaveError DBState) : Bool :=
  (okOf e).isSome

/-! ### Construction with uid omitted (the column defaults fire) -/

def newReference (seed : Nat) (name : Option String) : Reference :=
  { uid := base62_12 seed, name := name }

def newClinicalTrial (seed : Nat) (name : Option String) : ClinicalTrial :=
  { uid := base62_8 seed, name := name }

def newBiosample (seed : Nat) (name : Option String) : Biosample :=
  { uid := base62_12 seed, name := name }

def newPatient (seed : Nat) (name : Option String) : Patient :=
  { uid := base62_12 seed, name := name }

def newMedication (seed : Nat) (name : String) : Medication :=
  { uid := bionty_ontology seed, name := name }

def newTreatment (seed : Nat) (name : Option String) : Treatment :=
  { uid := base62_12 seed, name := name }

/-! ### Save (create) operations

A save assigns the auto-increment primary key, then performs the checks the
field declarations induce, in the order the framework surfaces them:
required columns (NOT NULL), field validation (blank / max_length /
choices), unique columns, then foreign keys.  On success the row is
appended. -/

def insertReference (s : DBState) (r0 : Reference) : Except SaveError DBState :=
  let r : Reference := { r0 with id := s.nextId }
  if r.name = none then .error .notNullViolation
  else if referenceValid r = false then .error .validationError
  else if s.references.any (fun x => decide (x.uid = r.uid)) then
    .error .uniquenessConflict
  else if s.references.any
      (fun x => decide (r.abbr ≠ none) && decide (x.abbr = r.abbr)) then
    .error .uniquenessConflict
  else .ok { s with references := s.references ++ [r], nextId := s.nextId + 1 }

def insertClinicalTrial (s : DBState) (r0 : ClinicalTrial) :
    Except SaveError DBState :=
  let r : ClinicalTrial := { r0 with id := s.nextId }
  if r.name = none then .error .notNullViolation
  else if clinicalTrialValid r = false then .error .validationError
  else if s.clinicaltrials.any (fun x => decide (x.uid = r.uid)) then
    .error .uniquenessConflict
  else .ok { s with clinicaltrials := s.clinicaltrials ++ [r],
                    nextId := s.nextId + 1 }

def insertBiosample (s : DBState) (r0 : Biosample) : Except SaveError DBState :=
  let r : Biosample := { r0 with id := s.nextId }
  if biosampleValid r = false then .error .validationError
  else if s.biosamples.any (fun x => decide (x.uid = r.uid)) then
    .error .uniquenessConflict
  else if ¬ optFkOk r.patient (s.patients.map Patient.id) then
    .error .fkViolation
  else if ¬ optFkOk r.clinical_trial (s.clinicaltrials.map ClinicalTrial.id) then
    .error .fkViolation
  else .ok { s with biosamples := s.biosamples ++ [r], nextId := s.nextId + 1 }

def insertPatient (s : DBState) (r0 : Patient) : Except SaveError DBState :=
  let r : Patient := { r0 with id := s.nextId }
  if r.name = none then .error .notNullViolation
  else if patientValid r = false then .error .validationError
  else if s.patients.any (fun x => decide (x.uid = r.uid)) then
    .error .uniquenessConflict
  else if ¬ optFkOk r.ethnicity s.ethnicities then .error .fkViolation
  else .ok { s with patients := s.patients ++ [r], nextId := s.nextId + 1 }

def insertMedication (s : DBState) (r0 : Medication) :
    Except SaveError DBState :=
  let r : Medication := { r0 with id := s.nextId }
  if medicationValid r = false then .error .validationError
  else if s.medications.any (fun x => decide (x.uid = r.uid)) then
    .error .uniquenessConflict
  else if s.medications.any
      (fun x => decide (r.abbr ≠ none) && decide (x.abbr = r.abbr)) then
    .error .uniquenessConflict
  else if s.medications.any
      (fun x => decide (r.ontology_id ≠ none) && decide (x.name = r.name) &&
        decide (x.ontology_id = r.ontology_id)) then
    .error .uniquenessConflict
  else .ok { s with medications := s.medications ++ [r],
                    nextId := s.nextId + 1 }

def insertTreatment (s : DBState) (r0 : Treatment) : Except SaveError DBState :=
  let r : Treatment := { r0 with id := s.nextId }
  if r.name = none then .error .notNullViolation
  else if treatmentValid r = false then .error .validationError
  else if s.treatments.any (fun x => decide (x.uid = r.uid)) then
    .error .uniquenessConflict
  else if ¬ optFkOk r.medication (s.medications.map Medication.id) then
    .error .fkViolation
  else .ok { s with treatments := s.treatments ++ [r], nextId := s.nextId + 1 }

/-! ### Deleting an artifact

The `artifact` foreign key of every link table is declared
`on_delete=CASCADE`: deleting the external artifact removes its link rows.
No other declared column references Artifact, so nothing else changes. -/

def deleteArtifact (s : DBState) (a : Nat) : DBState :=
  { s with
    artifacts := s.artifacts.filter (fun x => decide (x ≠ a)),
    links_reference := s.links_reference.filter (fun L => decide (L.artifact ≠ a)),
    links_clinicaltrial :=
      s.links_clinicaltrial.filter (fun L => decide (L.artifact ≠ a)),
    links_biosample := s.links_biosample.filter (fun L => decide (L.artifact ≠ a)),
    links_patient := s.links_patient.filter (fun L => decide (L.artifact ≠ a)),
    links_medication :=
      s.links_medication.filter (fun L => decide (L.artifact ≠ a)),
    links_treatment :=
      s.links_treatment.filter (fun L => decide (L.artifact ≠ a)) }

/-! ### Deleting a primary entity

The primary-entity foreign key of every link table is declared
`on_delete=PROTECT`: the delete is refused while link rows point at the
record, and the state is unchanged (`.error` returns no new state). -/

def deleteReference (s : DBState) (rid : Nat) : Except SaveError DBState :=
  if s.links_reference.any (fun L => decide (L.reference = rid)) then
    .error .protectedError
  else .ok { s with references := s.references.filter (fun r => decide (r.id ≠ rid)) }

def deleteClinicalTrial (s : DBState) (rid : Nat) : Except SaveError DBState :=
  if s.links_clinicaltrial.any (fun L => decide (L.clinicaltrial = rid)) then
    .error .protectedError
  else if s.biosamples.any (fun b => decide (b.clinical_trial = some rid)) then
    .error .protectedError
  else .ok { s with clinicaltrials :=
    s.clinicaltrials.filter (fun r => decide (r.id ≠ rid)) }

def deleteBiosample (s : DBState) (rid : Nat) : Except SaveError DBState :=
  if s.links_biosample.any (fun L => decide (L.biosample = rid)) then
    .error .protectedError
  else .ok { s with biosamples := s.biosamples.filter (fun r => decide (r.id ≠ rid)) }

def deletePatient (s : DBState) (rid : Nat) : Except SaveError DBState :=
  if s.links_patient.any (fun L => decide (L.patient = rid)) then
    .error .protectedError
  else if s.biosamples.any (fun b => decide (b.patient = some rid)) then
    .error .protectedError
  else .ok { s with patients := s.patients.filter (fun r => decide (r.id ≠ rid)) }

def deleteMedication (s : DBState) (rid : Nat) : Except SaveError DBState :=
  if s.links_medication.any (fun L => decide (L.medication = rid)) then
    .error .protectedError
  else if s.treatments.any (fun t => decide (t.medication = some rid)) then
    .error .protectedError
  else if s.medication_parents.any
      (fun p => decide (p.1 = rid) || decide (p.2 = rid)) then
    .error .protectedError
  else .ok { s with medications := s.medications.filter (fun r => decide (r.id ≠ rid)) }

def deleteTreatment (s : DBState) (rid : Nat) : Except SaveError DBState :=
  if s.links_treatment.any (fun L => decide (L.treatment = rid)) then
    .error .protectedError
  else .ok { s with treatments := s.treatments.filter (fun r => decide (r.id ≠ rid)) }

/-! ### Update-and-re-save

An update mutates the fields of the row with the given primary key and
re-saves it: the row is re-validated and the unique columns are re-checked
against the other rows.  The primary key itself is what the UPDATE is keyed
on and does not change. -/

def updateById {α : Type} (idOf : α → Nat) (rid : Nat) (f : α → α)
    (l : List α) : List α :=
  l.map (fun x => if idOf x = rid then f x else x)

def updateReference (s : DBState) (rid : Nat) (f : Reference → Reference) :
    Except SaveError DBState :=
  match s.references.find? (fun r => decide (r.id = rid)) with
  | none => .error .notFoundError
  | some r =>
    let r' : Reference := { f r with id := rid }
    if r'.name = none then .error .notNullViolation
    else if referenceValid r' = false then .error .validationError
    else if s.references.any
        (fun x => decide (x.id ≠ rid) && decide (x.uid = r'.uid)) then
      .error .uniquenessConflict
    else if s.references.any
        (fun x => decide (x.id ≠ rid) && decide (r'.abbr ≠ none) &&
          decide (x.abbr = r'.abbr)) then
      .error .uniquenessConflict
    else
      let upd := updateById Reference.id rid (fun x => { f x with id := rid }) s.references
      .ok { s with references := upd }

def updateClinicalTrial (s : DBState) (rid : Nat)
    (f : ClinicalTrial → ClinicalTrial) : Except SaveError DBState :=
  match s.clinicaltrials.find? (fun r => decide (r.id = rid)) with
  | none => .error .notFoundError
  | some r =>
    let r' : ClinicalTrial := { f r with id := rid }
    if r'.name = none then .error .notNullViolation
    else if clinicalTrialValid r' = false then .error .validationError
    else if s.clinicaltrials.any
        (fun x => decide (x.id ≠ rid) && decide (x.uid = r'.uid)) then
      .error .uniquenessConflict
    else
      let upd := updateById ClinicalTrial.id rid (fun x => { f x with id := rid }) s.clinicaltrials
      .ok { s with clinicaltrials := upd }

def updateBiosample (s : DBState) (rid : Nat) (f : Biosample → Biosample) :
    Except SaveError DBState :=
  match s.biosamples.find? (fun r => decide (r.id = rid)) with
  | none => .error .notFoundError
  | some r =>
    let r' : Biosample := { f r with id := rid }
    if biosampleValid r' = false then .error .validationError
    else if s.biosamples.any
        (fun x => decide (x.id ≠ rid) && decide (x.uid = r'.uid)) then
      .error .uniquenessConflict
    else if ¬ optFkOk r'.patient (s.patients.map Patient.id) then
      .error .fkViolation
    else if ¬ optFkOk r'.clinical_trial
        (s.clinicaltrials.map ClinicalTrial.id) then
      .error .fkViolation
    else
      let upd := updateById Biosample.id rid (fun x => { f x with id := rid }) s.biosamples
      .ok { s with biosamples := upd }

def updatePatient (s : DBState) (rid : Nat) (f : Patient → Patient) :
    Except SaveError DBState :=
  match s.patients.find? (fun r => decide (r.id = rid)) with
  | none => .error .notFoundError
  | some r =>
    let r' : Patient := { f r with id := rid }
    if r'.name = none then .error .notNullViolation
    else if patientValid r' = false then .error .validationError
    else if s.patients.any
        (fun x => decide (x.id ≠ rid) && decide (x.uid = r'.uid)) then
      .error .uniquenessConflict
    else if ¬ optFkOk r'.ethnicity s.ethnicities then .error .fkViolation
    else
      let upd := updateById Patient.id rid (fun x => { f x with id := rid }) s.patients
      .ok { s with patients := upd }

def updateMedication (s : DBState) (rid : Nat) (f : Medication → Medication) :
    Except SaveError DBState :=
  match s.medications.find? (fun r => decide (r.id = rid)) with
  | none => .error .notFoundError
  | some r =>
    let r' : Medication := { f r with id := rid }
    if medicationValid r' = false then .error .validationError
    else if s.medications.any
        (fun x => decide (x.id ≠ rid) && decide (x.uid = r'.uid)) then
      .error .uniquenessConflict
    else if s.medications.any
        (fun x => decide (x.id ≠ rid) && decide (r'.abbr ≠ none) &&
          decide (x.abbr = r'.abbr)) then
      .error .uniquenessConflict
    else if s.medications.any
        (fun x => decide (x.id ≠ rid) && decide (r'.ontology_id ≠ none) &&
          decide (x.name = r'.name) &&
          decide (x.ontology_id = r'.ontology_id)) then
      .error .uniquenessConflict
    else
      let upd := updateById Medication.id rid (fun x => { f x with id := rid }) s.medications
      .ok { s with medications := upd }

def updateTreatment (s : DBState) (rid : Nat) (f : Treatment → Treatment) :
    Except SaveError DBState :=
  match s.treatments.find? (fun r => decide (r.id = rid)) with
  | none => .error .notFoundError
  | some r =>
    let r' : Treatment := { f r with id := rid }
    if r'.name = none then .error .notNullViolation
    else if treatmentValid r' = false then .error .validationError
    else if s.treatments.any
        (fun x => decide (x.id ≠ rid) && decide (x.uid = r'.uid)) then
      .error .uniquenessConflict
    else if ¬ optFkOk r'.medication (s.medications.map Medication.id) then
      .error .fkViolation
    else
      let upd := updateById Treatment.id rid (fun x => { f x with id := rid }) s.treatments
      .ok { s with treatments := upd }

/-! ### The self-referential Medication hierarchy

`Medication.parents = ManyToManyField("self", symmetrical=False, ...)`:
adding a parent checks only that both endpoints exist (foreign keys of the
auto-created through table); re-adding an existing pair is a no-op.  No
cycle check appears anywhere in the declaration. -/

def addMedicationParent (s : DBState) (child parentId : Nat) :
    Except SaveError DBState :=
  if ¬ (child ∈ s.medications.map Medication.id) then .error .fkViolation
  else if ¬ (parentId ∈ s.medications.map Medication.id) then
    .error .fkViolation
  else if (child, parentId) ∈ s.medication_parents then .ok s
  else .ok { s with medication_parents :=
    s.medication_parents ++ [(child, parentId)] }

/-! ## Helper lemmas -/

theorem base62String_length (len seed : Nat) :
    (base62String len seed).length = len := by
  simp [base62String, String.length]

theorem base62Char_mem (n : Nat) : base62Char n ∈ base62Alphabet := by
  have h62 : ∀ k, k < 62 → base62Alphabet.getD k '0' ∈ base62Alphabet := by
    decide
  exact h62 (n % 62) (Nat.mod_lt _ (by norm_num))

theorem base62String_chars (len seed : Nat) :
    ∀ c ∈ (base62String len seed).toList, c ∈ base62Alphabet := by
  intro c hc
  have hc' : c ∈ (List.range len).map (fun i => base62Char (seed / 62 ^ i)) := hc
  obtain ⟨i, _, rfl⟩ := List.mem_map.mp hc'
  exact base62Char_mem _

theorem distinctOn_mem {α β : Type} {f : α → β} {l : List α}
    (h : distinctOn f l) {a b : α} (ha : a ∈ l) (hb : b ∈ l) (hab : a ≠ b) :
    f a ≠ f b := by
  unfold distinctOn at h
  have hsym : Symmetric (fun a b : α => f a ≠ f b) := fun x y hxy e => hxy e.symm
  exact h.forall hsym ha hb hab

theorem optDistinct_mem {α : Type} {f : α → Option String} {l : List α}
    (h : optDistinct f l) {a b : α} (ha : a ∈ l) (hb : b ∈ l) (hab : a ≠ b)
    (hsa : f a ≠ none) : f a ≠ f b := by
  unfold optDistinct at h
  have hsym : Symmetric (fun a b : α => ¬(f a ≠ none ∧ f a = f b)) := by
    intro x y hxy ⟨hy, hyx⟩
    exact hxy ⟨hyx ▸ hy, hyx.symm⟩
  intro he
  exact (h.forall hsym ha hb hab) ⟨hsa, he⟩

theorem nameOntologyDistinct_mem {l : List Medication}
    (h : nameOntologyDistinct l) {a b : Medication} (ha : a ∈ l) (hb : b ∈ l)
    (hab : a ≠ b) (hsa : a.ontology_id ≠ none) :
    ¬(a.name = b.name ∧ a.ontology_id = b.ontology_id) := by
  unfold nameOntologyDistinct at h
  have hsym : Symmetric (fun a b : Medication =>
      ¬(a.ontology_id ≠ none ∧ a.name = b.name ∧ a.ontology_id = b.ontology_id)) := by
    intro x y hxy ⟨ho, hn, hoo⟩
    exact hxy ⟨hoo ▸ ho, hn.symm, hoo.symm⟩
  intro ⟨hn, ho⟩
  exact (h.forall hsym ha hb hab) ⟨hsa, hn, ho⟩

theorem updateById_map_eq {α β : Type} (idOf : α → Nat) (g : α → β)
    (rid : Nat) (f : α → α) (h : ∀ x, g (f x) = g x) (l : List α) :
    (updateById idOf rid f l).map g = l.map g := by
  induction l with
  | nil => rfl
  | cons a t ih =>
    by_cases hq : idOf a = rid
    · simpa [updateById, hq, h a] using ih
    · simpa [updateById, hq] using ih

/-! ## Claims -/

/-- A state holding, in each of the six link tables, two distinct link rows
that reference the same artifact and the same primary entity. -/
def dupLinkState : DBState :=
  { nextId := 23,
    artifacts := [100],
    references := [{ id := 1, uid := "r1", name := some "r" }],
    clinicaltrials := [{ id := 2, uid := "c1", name := some "NCT00000001" }],
    biosamples := [{ id := 3, uid := "b1" }],
    patients := [{ id := 4, uid := "p1", name := some "p" }],
    medications := [{ id := 5, uid := "m1", name := "m" }],
    treatments := [{ id := 6, uid := "t1", name := some "t" }],
    links_reference := [{ id := 11, artifact := 100, reference := 1 },
                        { id := 12, artifact := 100, reference := 1 }],
    links_clinicaltrial := [{ id := 13, artifact := 100, clinicaltrial := 2 },
                            { id := 14, artifact := 100, clinicaltrial := 2 }],
    links_biosample := [{ id := 15, artifact := 100, biosample := 3 },
                        { id := 16, artifact := 100, biosample := 3 }],
    links_patient := [{ id := 17, artifact := 100, patient := 4 },
                      { id := 18, artifact := 100, patient := 4 }],
    links_medication := [{ id := 19, artifact := 100, medication := 5 },
                         { id := 20, artifact := 100, medication := 5 }],
    links_treatment := [{ id := 21, artifact := 100, treatment := 6 },
                        { id := 22, artifact := 100, treatment := 6 }] }

/-- Claim C10 (confirmed): no link table constrains the
(artifact, primary-entity) pair to be unique — `dupLinkState` holds two
distinct rows with the same artifact and the same primary entity in each of
the six link tables, and every schema-level constraint is satisfied. -/
theorem claim_C10_theorem :
    wfState dupLinkState ∧
    (∃ a ∈ dupLinkState.links_reference, ∃ b ∈ dupLinkState.links_reference,
      a ≠ b ∧ a.artifact = b.artifact ∧ a.reference = b.reference) ∧
    (∃ a ∈ dupLinkState.links_clinicaltrial,
      ∃ b ∈ dupLinkState.links_clinicaltrial,
      a ≠ b ∧ a.artifact = b.artifact ∧ a.clinicaltrial = b.clinicaltrial) ∧
    (∃ a ∈ dupLinkState.links_biosample, ∃ b ∈ dupLinkState.links_biosample,
      a ≠ b ∧ a.artifact = b.artifact ∧ a.biosample = b.biosample) ∧
    (∃ a ∈ dupLinkState.links_patient, ∃ b ∈ dupLinkState.links_patient,
      a ≠ b ∧ a.artifact = b.artifact ∧ a.patient = b.patient) ∧
    (∃ a ∈ dupLinkState.links_medication, ∃ b ∈ dupLinkState.links_medication,
      a ≠ b ∧ a.artifact = b.artifact ∧ a.medication = b.medication) ∧
    (∃ a ∈ dupLinkState.links_treatment, ∃ b ∈ dupLinkState.links_treatment,
      a ≠ b ∧ a.artifact = b.artifact ∧ a.treatment = b.treatment) := by
  decide

/-- Creation of two medications followed by the two `parents.add` calls
that close a cycle between them. -/
def medCycleRun : Except SaveError DBState :=
  (insertMedication emptyState (newMedication 1 "A")).bind fun s1 =>
    (insertMedication s1 (newMedication 2 "B")).bind fun s2 =>
      (addMedicationParent s2 2 1).bind fun s3 =>
        addMedicationParent s3 1 2

def medCycleState : DBState := (okOf medCycleRun).getD emptyState

/-- Claim C9 (confirmed): the Medication `parents` relation enforces no
acyclicity — inserting medications A (id 1) and B (id 2) and adding A as a
parent of B and B as a parent of A succeeds, and the resulting state, in
which the two rows form a cycle, satisfies every schema-level constraint. -/
theorem claim_C9_theorem :
    saveOk medCycleRun = true ∧ wfState medCycleState ∧
    (2, 1) ∈ medCycleState.medication_parents ∧
    (1, 2) ∈ medCycleState.medication_parents := by
  decide

theorem base62_12_length (seed : Nat) : (base62_12 seed).length = 12 :=
  base62String_length 12 seed

theorem base62_8_length (seed : Nat) : (base62_8 seed).length = 8 :=
  base62String_length 8 seed

theorem bionty_ontology_length (seed : Nat) : (bionty_ontology seed).length = 8 :=
  base62String_length 8 seed

/-- `Reference(name="x", doi="not-a-doi")` as constructed by the claim. -/
def c1BadDoiRef : Reference :=
  { newReference 3 (some "x") with doi := some "not-a-doi" }

/-- Claim C1: counterexample. The claim states that construction fails
whenever the supplied doi does not match the DOI pattern; in this schema
version `doi` is a plain CharField with no validator, so
`Reference(name="x", doi="not-a-doi")` saves successfully even though
"not-a-doi" does not match the pattern. -/
theorem claim_C1_counterexample :
    doiRegexAccepts "not-a-doi" = false ∧
    saveOk (insertReference emptyState c1BadDoiRef) = true := by
  decide

/-- Claim C1 (corrected): this schema version does not validate `doi` —
for every state and every supplied doi string (within the column length),
constructing a Reference with a valid name succeeds regardless of whether
the doi matches the DOI pattern; in particular both
`Reference(name="A paper title", doi="10.1000/xyz123")` and
`Reference(name="x", doi="not-a-doi")` save successfully. -/
theorem claim_C1_theorem (s : DBState) (seed : Nat) (n d : String)
    (hn : n ≠ "") (hnl : n.length ≤ 255) (hdl : d.length ≤ 255)
    (huid : ∀ r ∈ s.references, r.uid ≠ base62_12 seed) :
    saveOk (insertReference s
      { newReference seed (some n) with doi := some d }) = true := by
  have hany : s.references.any
      (fun x => decide (x.uid = base62_12 seed)) = false := by
    simp only [List.any_eq_false, decide_eq_true_eq]
    exact huid
  simp [insertReference, newReference, referenceValid, reqNameOk, optLenLe,
    saveOk, okOf, hn, hnl, hdl, base62_12_length, hany]

/-- Claim C1: witness — the two constructions named by the spec scenario,
with the hypotheses discharged at the empty database. -/
theorem claim_C1_witness :
    doiRegexAccepts "10.1000/xyz123" = true ∧
    saveOk (insertReference emptyState
      { newReference 1 (some "A paper title") with
          doi := some "10.1000/xyz123" }) = true ∧
    saveOk (insertReference emptyState
      { newReference 1 (some "x") with doi := some "not-a-doi" }) = true :=
  ⟨by decide,
   claim_C1_theorem emptyState 1 "A paper title" "10.1000/xyz123"
     (by decide) (by decide) (by decide) (by intro r hr; cases hr),
   claim_C1_theorem emptyState 1 "x" "not-a-doi"
     (by decide) (by decide) (by decide) (by intro r hr; cases hr)⟩

/-- Claim C2: counterexample. The claim says every primary registry
requires `name`; `Biosample.name` is declared `null=True`, so a Biosample
constructed without a name saves successfully and the stored row has no
name. -/
theorem claim_C2_counterexample :
    saveOk (insertBiosample emptyState (newBiosample 4 none)) = true ∧
    ((okOf (insertBiosample emptyState (newBiosample 4 none))).getD
        emptyState).biosamples.map Biosample.name = [none] := by
  decide

/-- Claim C2 (corrected): for Reference, ClinicalTrial, Patient, Medication
and Treatment, saving a record without a name fails (NOT NULL for the four
with `default=None`; blank-name validation for Medication), while a
Biosample without a name saves successfully; for every registry a record
carrying only a name (every other descriptive field omitted) saves
successfully. -/
theorem claim_C2_theorem :
    (∀ (s : DBState) (r : Reference), r.name = none →
      errOf (insertReference s r) = some .notNullViolation) ∧
    (∀ (s : DBState) (r : ClinicalTrial), r.name = none →
      errOf (insertClinicalTrial s r) = some .notNullViolation) ∧
    (∀ (s : DBState) (r : Patient), r.name = none →
      errOf (insertPatient s r) = some .notNullViolation) ∧
    (∀ (s : DBState) (r : Treatment), r.name = none →
      errOf (insertTreatment s r) = some .notNullViolation) ∧
    (∀ (s : DBState) (r : Medication), r.name = "" →
      errOf (insertMedication s r) = some .validationError) ∧
    (∀ (s : DBState) (seed : Nat),
      (∀ b ∈ s.biosamples, b.uid ≠ base62_12 seed) →
      saveOk (insertBiosample s (newBiosample seed none)) = true) ∧
    (∀ (s : DBState) (seed : Nat) (n : String), n ≠ "" → n.length ≤ 255 →
      (∀ r ∈ s.references, r.uid ≠ base62_12 seed) →
      saveOk (insertReference s (newReference seed (some n))) = true) ∧
    (∀ (s : DBState) (seed : Nat) (n : String), n ≠ "" → n.length ≤ 255 →
      (∀ r ∈ s.clinicaltrials, r.uid ≠ base62_8 seed) →
      saveOk (insertClinicalTrial s (newClinicalTrial seed (some n))) = true) ∧
    (∀ (s : DBState) (seed : Nat) (n : String), n ≠ "" → n.length ≤ 255 →
      (∀ r ∈ s.biosamples, r.uid ≠ base62_12 seed) →
      saveOk (insertBiosample s (newBiosample seed (some n))) = true) ∧
    (∀ (s : DBState) (seed : Nat) (n : String), n ≠ "" → n.length ≤ 255 →
      (∀ r ∈ s.patients, r.uid ≠ base62_12 seed) →
      saveOk (insertPatient s (newPatient seed (some n))) = true) ∧
    (∀ (s : DBState) (seed : Nat) (n : String), n ≠ "" → n.length ≤ 255 →
      (∀ r ∈ s.medications, r.uid ≠ bionty_ontology seed) →
      saveOk (insertMedication s (newMedication seed n)) = true) ∧
    (∀ (s : DBState) (seed : Nat) (n : String), n ≠ "" → n.length ≤ 255 →
      (∀ r ∈ s.treatments, r.uid ≠ base62_12 seed) →
      saveOk (insertTreatment s (newTreatment seed (some n))) = true) := by
  refine ⟨?_, ?_, ?_, ?_, ?_, ?_, ?_, ?_, ?_, ?_, ?_, ?_⟩
  · intro s r h
    simp [insertReference, h, errOf]
  · intro s r h
    simp [insertClinicalTrial, h, errOf]
  · intro s r h
    simp [insertPatient, h, errOf]
  · intro s r h
    simp [insertTreatment, h, errOf]
  · intro s r h
    simp [insertMedication, medicationValid, h, errOf]
  · intro s seed huid
    have hany : s.biosamples.any
        (fun x => decide (x.uid = base62_12 seed)) = false := by
      simp only [List.any_eq_false, decide_eq_true_eq]
      exact huid
    simp [insertBiosample, newBiosample, biosampleValid, optLenLe,
      saveOk, okOf, base62_12_length, hany, optFkOk]
  · intro s seed n hn hnl huid
    have hany : s.references.any
        (fun x => decide (x.uid = base62_12 seed)) = false := by
      simp only [List.any_eq_false, decide_eq_true_eq]
      exact huid
    simp [insertReference, newReference, referenceValid, reqNameOk, optLenLe,
      saveOk, okOf, hn, hnl, base62_12_length, hany]
  · intro s seed n hn hnl huid
    have hany : s.clinicaltrials.any
        (fun x => decide (x.uid = base62_8 seed)) = false := by
      simp only [List.any_eq_false, decide_eq_true_eq]
      exact huid
    simp [insertClinicalTrial, newClinicalTrial, clinicalTrialValid,
      reqNameOk, saveOk, okOf, hn, hnl, base62_8_length, hany]
  · intro s seed n hn hnl huid
    have hany : s.biosamples.any
        (fun x => decide (x.uid = base62_12 seed)) = false := by
      simp only [List.any_eq_false, decide_eq_true_eq]
      exact huid
    simp [insertBiosample, newBiosample, biosampleValid, optLenLe,
      saveOk, okOf, hnl, base62_12_length, hany, optFkOk]
  · intro s seed n hn hnl huid
    have hany : s.patients.any
        (fun x => decide (x.uid = base62_12 seed)) = false := by
      simp only [List.any_eq_false, decide_eq_true_eq]
      exact huid
    simp [insertPatient, newPatient, patientValid, reqNameOk, optLenLe,
      optChoiceOk, saveOk, okOf, hn, hnl, base62_12_length, hany, optFkOk]
  · intro s seed n hn hnl huid
    have h256 : n.length ≤ 256 := Nat.le_succ_of_le hnl
    have hany : s.medications.any
        (fun x => decide (x.uid = bionty_ontology seed)) = false := by
      simp only [List.any_eq_false, decide_eq_true_eq]
      exact huid
    simp [insertMedication, newMedication, medicationValid, optLenLe,
      saveOk, okOf, hn, h256, bionty_ontology_length, hany]
  · intro s seed n hn hnl huid
    have hany : s.treatments.any
        (fun x => decide (x.uid = base62_12 seed)) = false := by
      simp only [List.any_eq_false, decide_eq_true_eq]
      exact huid
    simp [insertTreatment, newTreatment, treatmentValid, reqNameOk, optLenLe,
      optChoiceOk, saveOk, okOf, hn, hnl, base62_12_length, hany, optFkOk]

/-- Claim C2: witness — hypotheses discharged at the empty database. -/
theorem claim_C2_witness :
    errOf (insertReference emptyState { uid := "u" }) =
        some .notNullViolation ∧
    errOf (insertMedication emptyState { uid := "u" }) =
        some .validationError ∧
    saveOk (insertBiosample emptyState (newBiosample 4 none)) = true ∧
    saveOk (insertPatient emptyState (newPatient 5 (some "Patient 5446"))) =
        true :=
  ⟨claim_C2_theorem.1 emptyState _ rfl,
   claim_C2_theorem.2.2.2.2.1 emptyState _ rfl,
   claim_C2_theorem.2.2.2.2.2.1 emptyState 4 (by intro b hb; cases hb),
   claim_C2_theorem.2.2.2.2.2.2.2.2.2.1 emptyState 5 "Patient 5446"
     (by decide) (by decide) (by intro r hr; cases hr)⟩

/-- Deleting an artifact preserves every schema-level constraint: the
cascade removes exactly the link rows of that artifact, so no dangling
foreign key remains. -/
theorem deleteArtifact_wf (s : DBState) (a : Nat) (h : wfState s) :
    wfState (deleteArtifact s a) := by
  obtain ⟨h1, h2, h3, h4, h5, h6, h7, h8, h9, h10, h11, h12, h13⟩ := h
  refine ⟨h1, h2, h3, h4, h5, h6, ?_, ?_, ?_, ?_, ?_, ?_, h13⟩
  · refine ⟨?_, List.Pairwise.sublist (List.filter_sublist _) h7.2⟩
    intro L hL
    obtain ⟨hL0, hLa⟩ := List.mem_filter.mp hL
    obtain ⟨hart, hprim, hfeat⟩ := h7.1 L hL0
    exact ⟨List.mem_filter.mpr ⟨hart, hLa⟩, hprim, hfeat⟩
  · refine ⟨?_, List.Pairwise.sublist (List.filter_sublist _) h8.2⟩
    intro L hL
    obtain ⟨hL0, hLa⟩ := List.mem_filter.mp hL
    obtain ⟨hart, hprim, hfeat⟩ := h8.1 L hL0
    exact ⟨List.mem_filter.mpr ⟨hart, hLa⟩, hprim, hfeat⟩
  · refine ⟨?_, List.Pairwise.sublist (List.filter_sublist _) h9.2⟩
    intro L hL
    obtain ⟨hL0, hLa⟩ := List.mem_filter.mp hL
    obtain ⟨hart, hprim, hfeat⟩ := h9.1 L hL0
    exact ⟨List.mem_filter.mpr ⟨hart, hLa⟩, hprim, hfeat⟩
  · refine ⟨?_, List.Pairwise.sublist (List.filter_sublist _) h10.2⟩
    intro L hL
    obtain ⟨hL0, hLa⟩ := List.mem_filter.mp hL
    obtain ⟨hart, hprim, hfeat⟩ := h10.1 L hL0
    exact ⟨List.mem_filter.mpr ⟨hart, hLa⟩, hprim, hfeat⟩
  · refine ⟨?_, List.Pairwise.sublist (List.filter_sublist _) h11.2⟩
    intro L hL
    obtain ⟨hL0, hLa⟩ := List.mem_filter.mp hL
    obtain ⟨hart, hprim, hfeat⟩ := h11.1 L hL0
    exact ⟨List.mem_filter.mpr ⟨hart, hLa⟩, hprim, hfeat⟩
  · refine ⟨?_, List.Pairwise.sublist (List.filter_sublist _) h12.2⟩
    intro L hL
    obtain ⟨hL0, hLa⟩ := List.mem_filter.mp hL
    obtain ⟨hart, hprim, hfeat⟩ := h12.1 L hL0
    exact ⟨List.mem_filter.mpr ⟨hart, hLa⟩, hprim, hfeat⟩

/-- Claim C3 (confirmed): deleting an artifact removes exactly its link
rows (CASCADE) while leaving every primary-entity table unchanged and
preserving all schema constraints; deleting a primary entity that still
has link rows pointing to it is refused with a protected-error (PROTECT),
returning no new state. -/
theorem claim_C3_theorem :
    (∀ (s : DBState) (a : Nat), wfState s → wfState (deleteArtifact s a)) ∧
    (∀ (s : DBState) (a : Nat),
      (deleteArtifact s a).references = s.references ∧
      (deleteArtifact s a).clinicaltrials = s.clinicaltrials ∧
      (deleteArtifact s a).biosamples = s.biosamples ∧
      (deleteArtifact s a).patients = s.patients ∧
      (deleteArtifact s a).medications = s.medications ∧
      (deleteArtifact s a).treatments = s.treatments) ∧
    (∀ (s : DBState) (a : Nat) (L : ArtifactReference),
      L ∈ (deleteArtifact s a).links_reference ↔
        L ∈ s.links_reference ∧ L.artifact ≠ a) ∧
    (∀ (s : DBState) (a : Nat) (L : ArtifactClinicalTrial),
      L ∈ (deleteArtifact s a).links_clinicaltrial ↔
        L ∈ s.links_clinicaltrial ∧ L.artifact ≠ a) ∧
    (∀ (s : DBState) (a : Nat) (L : ArtifactBiosample),
      L ∈ (deleteArtifact s a).links_biosample ↔
        L ∈ s.links_biosample ∧ L.artifact ≠ a) ∧
    (∀ (s : DBState) (a : Nat) (L : ArtifactPatient),
      L ∈ (deleteArtifact s a).links_patient ↔
        L ∈ s.links_patient ∧ L.artifact ≠ a) ∧
    (∀ (s : DBState) (a : Nat) (L : ArtifactMedication),
      L ∈ (deleteArtifact s a).links_medication ↔
        L ∈ s.links_medication ∧ L.artifact ≠ a) ∧
    (∀ (s : DBState) (a : Nat) (L : ArtifactTreatment),
      L ∈ (deleteArtifact s a).links_treatment ↔
        L ∈ s.links_treatment ∧ L.artifact ≠ a) ∧
    (∀ (s : DBState) (rid : Nat),
      (∃ L ∈ s.links_reference, L.reference = rid) →
      errOf (deleteReference s rid) = some .protectedError) ∧
    (∀ (s : DBState) (rid : Nat),
      (∃ L ∈ s.links_clinicaltrial, L.clinicaltrial = rid) →
      errOf (deleteClinicalTrial s rid) = some .protectedError) ∧
    (∀ (s : DBState) (rid : Nat),
      (∃ L ∈ s.links_biosample, L.biosample = rid) →
      errOf (deleteBiosample s rid) = some .protectedError) ∧
    (∀ (s : DBState) (rid : Nat),
      (∃ L ∈ s.links_patient, L.patient = rid) →
      errOf (deletePatient s rid) = some .protectedError) ∧
    (∀ (s : DBState) (rid : Nat),
      (∃ L ∈ s.links_medication, L.medication = rid) →
      errOf (deleteMedication s rid) = some .protectedError) ∧
    (∀ (s : DBState) (rid : Nat),
      (∃ L ∈ s.links_treatment, L.treatment = rid) →
      errOf (deleteTreatment s rid) = some .protectedError) := by
  refine ⟨deleteArtifact_wf, ?_, ?_, ?_, ?_, ?_, ?_, ?_, ?_, ?_, ?_, ?_, ?_, ?_⟩
  · intro s a
    exact ⟨rfl, rfl, rfl, rfl, rfl, rfl⟩
  · intro s a L
    simp [deleteArtifact, List.mem_filter]
  · intro s a L
    simp [deleteArtifact, List.mem_filter]
  · intro s a L
    simp [deleteArtifact, List.mem_filter]
  · intro s a L
    simp [deleteArtifact, List.mem_filter]
  · intro s a L
    simp [deleteArtifact, List.mem_filter]
  · intro s a L
    simp [deleteArtifact, List.mem_filter]
  · intro s rid h
    obtain ⟨L, hL, hLr⟩ := h
    have hany : s.links_reference.any
        (fun x => decide (x.reference = rid)) = true :=
      List.any_eq_true.mpr ⟨L, hL, decide_eq_true hLr⟩
    simp [deleteReference, hany, errOf]
  · intro s rid h
    obtain ⟨L, hL, hLr⟩ := h
    have hany : s.links_clinicaltrial.any
        (fun x => decide (x.clinicaltrial = rid)) = true :=
      List.any_eq_true.mpr ⟨L, hL, decide_eq_true hLr⟩
    simp [deleteClinicalTrial, hany, errOf]
  · intro s rid h
    obtain ⟨L, hL, hLr⟩ := h
    have hany : s.links_biosample.any
        (fun x => decide (x.biosample = rid)) = true :=
      List.any_eq_true.mpr ⟨L, hL, decide_eq_true hLr⟩
    simp [deleteBiosample, hany, errOf]
  · intro s rid h
    obtain ⟨L, hL, hLr⟩ := h
    have hany : s.links_patient.any
        (fun x => decide (x.patient = rid)) = true :=
      List.any_eq_true.mpr ⟨L, hL, decide_eq_true hLr⟩
    simp [deletePatient, hany, errOf]
  · intro s rid h
    obtain ⟨L, hL, hLr⟩ := h
    have hany : s.links_medication.any
        (fun x => decide (x.medication = rid)) = true :=
      List.any_eq_true.mpr ⟨L, hL, decide_eq_true hLr⟩
    simp [deleteMedication, hany, errOf]
  · intro s rid h
    obtain ⟨L, hL, hLr⟩ := h
    have hany : s.links_treatment.any
        (fun x => decide (x.treatment = rid)) = true :=
      List.any_eq_true.mpr ⟨L, hL, decide_eq_true hLr⟩
    simp [deleteTreatment, hany, errOf]

/-- A state with one artifact (id 7), one reference (id 1) and one link
row between them. -/
def c3State : DBState :=
  { nextId := 3,
    artifacts := [7],
    references := [{ id := 1, uid := "r1", name := some "r" }],
    links_reference := [{ id := 2, artifact := 7, reference := 1 }] }

/-- Claim C3: witness — at `c3State`, deleting the artifact succeeds and
leaves the reference in place, while deleting the still-linked reference is
refused. -/
theorem claim_C3_witness :
    wfState c3State ∧
    wfState (deleteArtifact c3State 7) ∧
    (deleteArtifact c3State 7).references = c3State.references ∧
    (deleteArtifact c3State 7).links_reference = [] ∧
    errOf (deleteReference c3State 1) = some .protectedError :=
  ⟨by decide,
   claim_C3_theorem.1 c3State 7 (by decide),
   (claim_C3_theorem.2.1 c3State 7).1,
   by decide,
   claim_C3_theorem.2.2.2.2.2.2.2.2.1 c3State 1
     ⟨{ id := 2, artifact := 7, reference := 1 }, by decide, rfl⟩⟩

/-- Claim C4 (confirmed): a record created with uid omitted gets the
generator of its entity — 12-character base62 for Reference, Biosample,
Patient and Treatment, 8-character base62 for ClinicalTrial and
Medication — and in every wellformed state, distinct records of a registry
have distinct uids. -/
theorem claim_C4_theorem :
    (∀ (seed : Nat) (nm : Option String), (newReference seed nm).uid.length = 12 ∧
      ∀ c ∈ (newReference seed nm).uid.toList, c ∈ base62Alphabet) ∧
    (∀ (seed : Nat) (nm : Option String),
      (newClinicalTrial seed nm).uid.length = 8 ∧
      ∀ c ∈ (newClinicalTrial seed nm).uid.toList, c ∈ base62Alphabet) ∧
    (∀ (seed : Nat) (nm : Option String), (newBiosample seed nm).uid.length = 12 ∧
      ∀ c ∈ (newBiosample seed nm).uid.toList, c ∈ base62Alphabet) ∧
    (∀ (seed : Nat) (nm : Option String), (newPatient seed nm).uid.length = 12 ∧
      ∀ c ∈ (newPatient seed nm).uid.toList, c ∈ base62Alphabet) ∧
    (∀ (seed : Nat) (nm : String), (newMedication seed nm).uid.length = 8 ∧
      ∀ c ∈ (newMedication seed nm).uid.toList, c ∈ base62Alphabet) ∧
    (∀ (seed : Nat) (nm : Option String), (newTreatment seed nm).uid.length = 12 ∧
      ∀ c ∈ (newTreatment seed nm).uid.toList, c ∈ base62Alphabet) ∧
    (∀ s : DBState, wfState s →
      (∀ a ∈ s.references, ∀ b ∈ s.references, a ≠ b → a.uid ≠ b.uid) ∧
      (∀ a ∈ s.clinicaltrials, ∀ b ∈ s.clinicaltrials, a ≠ b → a.uid ≠ b.uid) ∧
      (∀ a ∈ s.biosamples, ∀ b ∈ s.biosamples, a ≠ b → a.uid ≠ b.uid) ∧
      (∀ a ∈ s.patients, ∀ b ∈ s.patients, a ≠ b → a.uid ≠ b.uid) ∧
      (∀ a ∈ s.medications, ∀ b ∈ s.medications, a ≠ b → a.uid ≠ b.uid) ∧
      (∀ a ∈ s.treatments, ∀ b ∈ s.treatments, a ≠ b → a.uid ≠ b.uid)) := by
  refine ⟨?_, ?_, ?_, ?_, ?_, ?_, ?_⟩
  · exact fun seed nm => ⟨base62_12_length seed, base62String_chars 12 seed⟩
  · exact fun seed nm => ⟨base62_8_length seed, base62String_chars 8 seed⟩
  · exact fun seed nm => ⟨base62_12_length seed, base62String_chars 12 seed⟩
  · exact fun seed nm => ⟨base62_12_length seed, base62String_chars 12 seed⟩
  · exact fun seed nm => ⟨bionty_ontology_length seed, base62String_chars 8 seed⟩
  · exact fun seed nm => ⟨base62_12_length seed, base62String_chars 12 seed⟩
  · intro s h
    obtain ⟨h1, h2, h3, h4, h5, h6, _⟩ := h
    refine ⟨?_, ?_, ?_, ?_, ?_, ?_⟩
    · intro a ha b hb hne
      exact distinctOn_mem h1.2.2.1 ha hb hne
    · intro a ha b hb hne
      exact distinctOn_mem h2.2.2 ha hb hne
    · intro a ha b hb hne
      exact distinctOn_mem h3.2.2 ha hb hne
    · intro a ha b hb hne
      exact distinctOn_mem h4.2.2 ha hb hne
    · intro a ha b hb hne
      exact distinctOn_mem h5.2.2.1 ha hb hne
    · intro a ha b hb hne
      exact distinctOn_mem h6.2.2 ha hb hne

def c4r1 : Reference := { id := 1, uid := "aaaaaaaaaaaa", name := some "A" }

def c4r2 : Reference := { id := 2, uid := "bbbbbbbbbbbb", name := some "B" }

def c4State : DBState := { nextId := 3, references := [c4r1, c4r2] }

/-- Claim C4: witness — concrete generated uids have the expected lengths,
and in a concrete wellformed two-row state the uids are distinct. -/
theorem claim_C4_witness :
    (newReference 0 (some "A paper title")).uid.length = 12 ∧
    (newClinicalTrial 1 (some "NCT00000000")).uid.length = 8 ∧
    (newMedication 7 "m").uid.length = 8 ∧
    (newTreatment 9 (some "t")).uid.length = 12 ∧
    c4r1.uid ≠ c4r2.uid :=
  ⟨(claim_C4_theorem.1 0 (some "A paper title")).1,
   (claim_C4_theorem.2.1 1 (some "NCT00000000")).1,
   (claim_C4_theorem.2.2.2.2.1 7 "m").1,
   (claim_C4_theorem.2.2.2.2.2.1 9 (some "t")).1,
   (claim_C4_theorem.2.2.2.2.2.2 c4State (by decide)).1 c4r1 (by decide)
     c4r2 (by decide) (by decide)⟩

/-- A wellformed state holding one Reference whose uid is
"aaaaaaaaaaaa". -/
def c5State : DBState :=
  { nextId := 2,
    references := [{ id := 1, uid := "aaaaaaaaaaaa",
                     name := some "A paper title" }] }

/-- An update-and-re-save that assigns a fresh uid to the stored row. -/
def c5Run : Except SaveError DBState :=
  updateReference c5State 1 (fun r => { r with uid := "bbbbbbbbbbbb" })

/-- Claim C5: counterexample. Nothing in the schema enforces uid
immutability: an update-and-re-save that assigns a new uid succeeds and
changes the stored uid. -/
theorem claim_C5_counterexample :
    wfState c5State ∧
    c5State.references.map Reference.uid = ["aaaaaaaaaaaa"] ∧
    saveOk c5Run = true ∧
    ((okOf c5Run).getD emptyState).references.map Reference.uid =
      ["bbbbbbbbbbbb"] := by
  decide

/-- Claim C5 (corrected): the schema does not enforce uid immutability (an
update may re-assign uid, subject only to the unique constraint); what
holds is the frame property that any update-and-re-save which does not
assign the uid field leaves every stored uid unchanged, in each of the six
registries. -/
theorem claim_C5_theorem :
    (∀ (s : DBState) (rid : Nat) (f : Reference → Reference) (s' : DBState),
      (∀ x, (f x).uid = x.uid) → okOf (updateReference s rid f) = some s' →
      s'.references.map Reference.uid = s.references.map Reference.uid) ∧
    (∀ (s : DBState) (rid : Nat) (f : ClinicalTrial → ClinicalTrial)
      (s' : DBState),
      (∀ x, (f x).uid = x.uid) → okOf (updateClinicalTrial s rid f) = some s' →
      s'.clinicaltrials.map ClinicalTrial.uid =
        s.clinicaltrials.map ClinicalTrial.uid) ∧
    (∀ (s : DBState) (rid : Nat) (f : Biosample → Biosample) (s' : DBState),
      (∀ x, (f x).uid = x.uid) → okOf (updateBiosample s rid f) = some s' →
      s'.biosamples.map Biosample.uid = s.biosamples.map Biosample.uid) ∧
    (∀ (s : DBState) (rid : Nat) (f : Patient → Patient) (s' : DBState),
      (∀ x, (f x).uid = x.uid) → okOf (updatePatient s rid f) = some s' →
      s'.patients.map Patient.uid = s.patients.map Patient.uid) ∧
    (∀ (s : DBState) (rid : Nat) (f : Medication → Medication) (s' : DBState),
      (∀ x, (f x).uid = x.uid) → okOf (updateMedication s rid f) = some s' →
      s'.medications.map Medication.uid = s.medications.map Medication.uid) ∧
    (∀ (s : DBState) (rid : Nat) (f : Treatment → Treatment) (s' : DBState),
      (∀ x, (f x).uid = x.uid) → okOf (updateTreatment s rid f) = some s' →
      s'.treatments.map Treatment.uid = s.treatments.map Treatment.uid) := by
  refine ⟨?_, ?_, ?_, ?_, ?_, ?_⟩
  · intro s rid f s' hf hok
    have hmap := updateById_map_eq Reference.id Reference.uid rid
      (fun x => { f x with id := rid }) (fun x => hf x) s.references
    unfold updateReference at hok
    split at hok
    · exact absurd hok (by simp [okOf])
    · dsimp only [] at hok
      split at hok
      · exact absurd hok (by simp [okOf])
      · split at hok
        · exact absurd hok (by simp [okOf])
        · split at hok
          · exact absurd hok (by simp [okOf])
          · split at hok
            · exact absurd hok (by simp [okOf])
            · simp only [okOf, Option.some.injEq] at hok
              rw [← hok]
              exact hmap
  · intro s rid f s' hf hok
    have hmap := updateById_map_eq ClinicalTrial.id ClinicalTrial.uid rid
      (fun x => { f x with id := rid }) (fun x => hf x) s.clinicaltrials
    unfold updateClinicalTrial at hok
    split at hok
    · exact absurd hok (by simp [okOf])
    · dsimp only [] at hok
      split at hok
      · exact absurd hok (by simp [okOf])
      · split at hok
        · exact absurd hok (by simp [okOf])
        · split at hok
          · exact absurd hok (by simp [okOf])
          · simp only [okOf, Option.some.injEq] at hok
            rw [← hok]
            exact hmap
  · intro s rid f s' hf hok
    have hmap := updateById_map_eq Biosample.id Biosample.uid rid
      (fun x => { f x with id := rid }) (fun x => hf x) s.biosamples
    unfold updateBiosample at hok
    split at hok
    · exact absurd hok (by simp [okOf])
    · dsimp only [] at hok
      split at hok
      · exact absurd hok (by simp [okOf])
      · split at hok
        · exact absurd hok (by simp [okOf])
        · split at hok
          · exact absurd hok (by simp [okOf])
          · split at hok
            · exact absurd hok (by simp [okOf])
            · simp only [okOf, Option.some.injEq] at hok
              rw [← hok]
              exact hmap
  · intro s rid f s' hf hok
    have hmap := updateById_map_eq Patient.id Patient.uid rid
      (fun x => { f x with id := rid }) (fun x => hf x) s.patients
    unfold updatePatient at hok
    split at hok
    · exact absurd hok (by simp [okOf])
    · dsimp only [] at hok
      split at hok
      · exact absurd hok (by simp [okOf])
      · split at hok
        · exact absurd hok (by simp [okOf])
        · split at hok
          · exact absurd hok (by simp [okOf])
          · split at hok
            · exact absurd hok (by simp [okOf])
            · simp only [okOf, Option.some.injEq] at hok
              rw [← hok]
              exact hmap
  · intro s rid f s' hf hok
    have hmap := updateById_map_eq Medication.id Medication.uid rid
      (fun x => { f x with id := rid }) (fun x => hf x) s.medications
    unfold updateMedication at hok
    split at hok
    · exact absurd hok (by simp [okOf])
    · dsimp only [] at hok
      split at hok
      · exact absurd hok (by simp [okOf])
      · split at hok
        · exact absurd hok (by simp [okOf])
        · split at hok
          · exact absurd hok (by simp [okOf])
          · split at hok
            · exact absurd hok (by simp [okOf])
            · simp only [okOf, Option.some.injEq] at hok
              rw [← hok]
              exact hmap
  · intro s rid f s' hf hok
    have hmap := updateById_map_eq Treatment.id Treatment.uid rid
      (fun x => { f x with id := rid }) (fun x => hf x) s.treatments
    unfold updateTreatment at hok
    split at hok
    · exact absurd hok (by simp [okOf])
    · dsimp only [] at hok
      split at hok
      · exact absurd hok (by simp [okOf])
      · split at hok
        · exact absurd hok (by simp [okOf])
        · split at hok
          · exact absurd hok (by simp [okOf])
          · split at hok
            · exact absurd hok (by simp [okOf])
            · simp only [okOf, Option.some.injEq] at hok
              rw [← hok]
              exact hmap

/-- An update-and-re-save of the same row that changes only the name. -/
def c5NameUpd : Except SaveError DBState :=
  updateReference c5State 1 (fun r => { r with name := some "B" })

/-- Claim C5: witness — a concrete uid-preserving update leaves the stored
uids unchanged. -/
theorem claim_C5_witness :
    ((okOf c5NameUpd).getD emptyState).references.map Reference.uid =
      c5State.references.map Reference.uid :=
  claim_C5_theorem.1 c5State 1 (fun r => { r with name := some "B" })
    ((okOf c5NameUpd).getD emptyState) (fun x => rfl) (by decide)

/-- Three references and three medications, none carrying an `abbr`, in
one wellformed state. -/
def c6NoAbbrState : DBState :=
  { nextId := 7,
    references := [{ id := 1, uid := "r1", name := some "A" },
                   { id := 2, uid := "r2", name := some "B" },
                   { id := 3, uid := "r3", name := some "C" }],
    medications := [{ id := 4, uid := "m1", name := "A" },
                    { id := 5, uid := "m2", name := "B" },
                    { id := 6, uid := "m3", name := "C" }] }

/-- Claim C6 (confirmed): in every wellformed state, two distinct records
of an abbr-carrying registry (Reference, Medication) with non-null abbr
have different abbr values; saving a second record with an existing abbr
fails with a uniqueness conflict; and any number of records may leave abbr
unset. -/
theorem claim_C6_theorem :
    (∀ s : DBState, wfState s → ∀ a ∈ s.references, ∀ b ∈ s.references,
      a ≠ b → a.abbr ≠ none → b.abbr ≠ none → a.abbr ≠ b.abbr) ∧
    (∀ s : DBState, wfState s → ∀ a ∈ s.medications, ∀ b ∈ s.medications,
      a ≠ b → a.abbr ≠ none → b.abbr ≠ none → a.abbr ≠ b.abbr) ∧
    (∀ (s : DBState) (r : Reference), r.abbr ≠ none →
      (∃ x ∈ s.references, x.abbr = r.abbr) → r.name ≠ none →
      referenceValid r = true →
      errOf (insertReference s r) = some .uniquenessConflict) ∧
    (∀ (s : DBState) (r : Medication), r.abbr ≠ none →
      (∃ x ∈ s.medications, x.abbr = r.abbr) → medicationValid r = true →
      errOf (insertMedication s r) = some .uniquenessConflict) ∧
    (wfState c6NoAbbrState ∧
      (∀ r ∈ c6NoAbbrState.references, r.abbr = none) ∧
      (∀ m ∈ c6NoAbbrState.medications, m.abbr = none)) := by
  refine ⟨?_, ?_, ?_, ?_, by decide⟩
  · intro s h a ha b hb hne hsa hsb
    exact optDistinct_mem h.1.2.2.2 ha hb hne hsa
  · intro s h a ha b hb hne hsa hsb
    exact optDistinct_mem h.2.2.2.2.1.2.2.2.1 ha hb hne hsa
  · intro s r hset hdup hname hvalid
    have hv : referenceValid { r with id := s.nextId } = true := hvalid
    by_cases huid : s.references.any (fun x => decide (x.uid = r.uid)) = true
    · simp [insertReference, hname, hv, huid, errOf]
    · obtain ⟨x, hx, hxa⟩ := hdup
      have hex : ∃ x ∈ s.references, ¬r.abbr = none ∧ x.abbr = r.abbr :=
        ⟨x, hx, hset, hxa⟩
      simp [insertReference, hname, hv, huid, hex, errOf]
  · intro s r hset hdup hvalid
    have hv : medicationValid { r with id := s.nextId } = true := hvalid
    by_cases huid : s.medications.any (fun x => decide (x.uid = r.uid)) = true
    · simp [insertMedication, hv, huid, errOf]
    · obtain ⟨x, hx, hxa⟩ := hdup
      have hex : ∃ x ∈ s.medications, ¬r.abbr = none ∧ x.abbr = r.abbr :=
        ⟨x, hx, hset, hxa⟩
      simp [insertMedication, hv, huid, hex, errOf]

/-- One reference with abbr "Q" and one medication with abbr "M". -/
def c6State : DBState :=
  { nextId := 3,
    references := [{ id := 1, uid := "r1", name := some "A",
                     abbr := some "Q" }],
    medications := [{ id := 2, uid := "m1", name := "A",
                      abbr := some "M" }] }

/-- Claim C6: witness — re-using an existing abbr is refused with a
uniqueness conflict, for Reference and for Medication. -/
theorem claim_C6_witness :
    errOf (insertReference c6State
      { uid := "r2", name := some "B", abbr := some "Q" }) =
        some .uniquenessConflict ∧
    errOf (insertMedication c6State
      { uid := "m2", name := "B", abbr := some "M" }) =
        some .uniquenessConflict ∧
    ({ id := 1, uid := "r1", name := some "A", abbr := some "Q" } :
        Reference).abbr ≠ none :=
  ⟨claim_C6_theorem.2.2.1 c6State
     { uid := "r2", name := some "B", abbr := some "Q" } (by decide)
     ⟨{ id := 1, uid := "r1", name := some "A", abbr := some "Q" },
       by decide, rfl⟩ (by decide) (by decide),
   claim_C6_theorem.2.2.2.1 c6State
     { uid := "m2", name := "B", abbr := some "M" } (by decide)
     ⟨{ id := 2, uid := "m1", name := "A", abbr := some "M" },
       by decide, rfl⟩ (by decide),
   by decide⟩

/-- Saving two medications that share name "x" and have no ontology_id. -/
def c7Run : Except SaveError DBState :=
  (insertMedication emptyState { uid := "m1", name := "x" }).bind fun s =>
    insertMedication s { uid := "m2", name := "x" }

def c7State : DBState := (okOf c7Run).getD emptyState

/-- Claim C7: counterexample. `unique_together` on (name, ontology_id)
exempts rows whose nullable `ontology_id` is NULL (SQL null semantics, and
the framework skips uniqueness validation when a checked field is None):
creating a second Medication with the same name and the same (null)
ontology_id succeeds, and the resulting state satisfies every schema-level
constraint while holding two distinct rows with equal (name, ontology_id)
pairs. -/
theorem claim_C7_counterexample :
    saveOk c7Run = true ∧ wfState c7State ∧
    (∃ a ∈ c7State.medications, ∃ b ∈ c7State.medications,
      a ≠ b ∧ a.name = b.name ∧ a.ontology_id = b.ontology_id) := by
  decide

/-- Claim C7 (corrected): the joint uniqueness of (name, ontology_id)
holds between rows whose ontology_id is non-null — in every wellformed
state two such distinct rows differ on the pair, and saving a second
Medication with the same name and the same non-null ontology_id fails with
a uniqueness conflict; rows with a null ontology_id are exempt. -/
theorem claim_C7_theorem :
    (∀ s : DBState, wfState s → ∀ a ∈ s.medications, ∀ b ∈ s.medications,
      a ≠ b → a.ontology_id ≠ none →
      ¬(a.name = b.name ∧ a.ontology_id = b.ontology_id)) ∧
    (∀ (s : DBState) (r : Medication), r.ontology_id ≠ none →
      (∃ x ∈ s.medications, x.name = r.name ∧ x.ontology_id = r.ontology_id) →
      medicationValid r = true →
      errOf (insertMedication s r) = some .uniquenessConflict) := by
  constructor
  · intro s h a ha b hb hne hsa
    exact nameOntologyDistinct_mem h.2.2.2.2.1.2.2.2.2 ha hb hne hsa
  · intro s r hset hdup hvalid
    have hv : medicationValid { r with id := s.nextId } = true := hvalid
    by_cases huid : s.medications.any (fun x => decide (x.uid = r.uid)) = true
    · simp [insertMedication, hv, huid, errOf]
    · by_cases habbr : ∃ x ∈ s.medications, ¬r.abbr = none ∧ x.abbr = r.abbr
      · simp [insertMedication, hv, huid, habbr, errOf]
      · obtain ⟨x, hx, hxn, hxo⟩ := hdup
        have hex : ∃ x ∈ s.medications,
            (¬r.ontology_id = none ∧ x.name = r.name) ∧
              x.ontology_id = r.ontology_id :=
          ⟨x, hx, ⟨hset, hxn⟩, hxo⟩
        simp [insertMedication, hv, huid, habbr, hex, errOf]

def c7m1 : Medication :=
  { id := 1, uid := "m1", name := "x", ontology_id := some "ONT:1" }

def c7m2 : Medication :=
  { id := 2, uid := "m9", name := "y", ontology_id := some "ONT:1" }

def c7WState : DBState := { nextId := 3, medications := [c7m1, c7m2] }

/-- Claim C7: witness — a duplicate of a non-null (name, ontology_id) pair
is refused, and the two stored rows with non-null ontology_id differ on
the pair. -/
theorem claim_C7_witness :
    errOf (insertMedication c7WState
      { uid := "m2", name := "x", ontology_id := some "ONT:1" }) =
        some .uniquenessConflict ∧
    ¬(c7m1.name = c7m2.name ∧ c7m1.ontology_id = c7m2.ontology_id) :=
  ⟨claim_C7_theorem.2 c7WState
     { uid := "m2", name := "x", ontology_id := some "ONT:1" } (by decide)
     ⟨c7m1, by decide, rfl, rfl⟩ (by decide),
   claim_C7_theorem.1 c7WState (by decide) c7m1 (by decide) c7m2 (by decide)
     (by decide) (by decide)⟩

/-- Claim C8 (confirmed): in every wellformed state, a stored Patient's
gender is unset or one of exactly {male, female, other, unknown} and a
stored Treatment's status is unset or one of exactly {in-progress,
completed, entered-in-error, stopped, on-hold, unknown, not-done}; a value
outside the choice set is rejected at validation, and any value inside it
(on an otherwise valid record) is accepted. -/
theorem claim_C8_theorem :
    (∀ s : DBState, wfState s → ∀ p ∈ s.patients, ∀ g, p.gender = some g →
      g ∈ ["male", "female", "other", "unknown"]) ∧
    (∀ s : DBState, wfState s → ∀ t ∈ s.treatments, ∀ g, t.status = some g →
      g ∈ ["in-progress", "completed", "entered-in-error", "stopped",
           "on-hold", "unknown", "not-done"]) ∧
    (∀ (s : DBState) (p : Patient) (g : String), p.gender = some g →
      g ∉ ["male", "female", "other", "unknown"] → p.name ≠ none →
      errOf (insertPatient s p) = some .validationError) ∧
    (∀ (s : DBState) (t : Treatment) (g : String), t.status = some g →
      g ∉ ["in-progress", "completed", "entered-in-error", "stopped",
           "on-hold", "unknown", "not-done"] → t.name ≠ none →
      errOf (insertTreatment s t) = some .validationError) ∧
    (∀ (s : DBState) (seed : Nat) (n g : String), n ≠ "" → n.length ≤ 255 →
      g ∈ ["male", "female", "other", "unknown"] →
      (∀ r ∈ s.patients, r.uid ≠ base62_12 seed) →
      saveOk (insertPatient s
        { newPatient seed (some n) with gender := some g }) = true) ∧
    (∀ (s : DBState) (seed : Nat) (n g : String), n ≠ "" → n.length ≤ 255 →
      g ∈ ["in-progress", "completed", "entered-in-error", "stopped",
           "on-hold", "unknown", "not-done"] →
      (∀ r ∈ s.treatments, r.uid ≠ base62_12 seed) →
      saveOk (insertTreatment s
        { newTreatment seed (some n) with status := some g }) = true) := by
  refine ⟨?_, ?_, ?_, ?_, ?_, ?_⟩
  · intro s h p hp g hg
    have hv := (h.2.2.2.1.1 p hp).1
    simp only [patientValid, Bool.and_eq_true] at hv
    have hch := hv.2
    rw [hg] at hch
    simp only [optChoiceOk, decide_eq_true_eq] at hch
    exact hch
  · intro s h t ht g hg
    have hv := (h.2.2.2.2.2.1.1 t ht).1
    simp only [treatmentValid, Bool.and_eq_true] at hv
    have hch := hv.1.1.1.2
    rw [hg] at hch
    simp only [optChoiceOk, decide_eq_true_eq] at hch
    exact hch
  · intro s p g hg hnot hname
    have hval : patientValid { p with id := s.nextId } = false := by
      simp [patientValid, optChoiceOk, GENDER_CHOICES, hg, hnot]
    simp [insertPatient, hname, hval, errOf]
  · intro s t g hg hnot hname
    have hval : treatmentValid { t with id := s.nextId } = false := by
      simp [treatmentValid, optChoiceOk, STATUS_CHOICES, hg, hnot]
    simp [insertTreatment, hname, hval, errOf]
  · intro s seed n g hn hnl hgm huid
    have hany : s.patients.any
        (fun x => decide (x.uid = base62_12 seed)) = false := by
      simp only [List.any_eq_false, decide_eq_true_eq]
      exact huid
    fin_cases hgm <;>
      simp [insertPatient, newPatient, patientValid, reqNameOk, optLenLe,
        optChoiceOk, GENDER_CHOICES, saveOk, okOf, hn, hnl,
        base62_12_length, hany, optFkOk] <;>
      rw [if_neg (by decide)] <;>
      rfl
  · intro s seed n g hn hnl hgm huid
    have hany : s.treatments.any
        (fun x => decide (x.uid = base62_12 seed)) = false := by
      simp only [List.any_eq_false, decide_eq_true_eq]
      exact huid
    fin_cases hgm <;>
      simp [insertTreatment, newTreatment, treatmentValid, reqNameOk,
        optLenLe, optChoiceOk, STATUS_CHOICES, saveOk, okOf, hn, hnl,
        base62_12_length, hany, optFkOk] <;>
      rw [if_neg (by decide)] <;>
      rfl

/-- One stored patient with gender "female" and one stored treatment with
status "completed". -/
def c8p : Patient :=
  { id := 1, uid := "p1", name := some "P", gender := some "female" }

def c8State : DBState :=
  { nextId := 3,
    patients := [c8p],
    treatments := [{ id := 2, uid := "t1", name := some "T",
                     status := some "completed" }] }

/-- Claim C8: witness — the stored enum values are in the choice sets, an
out-of-set value is rejected, an in-set value accepted. -/
theorem claim_C8_witness :
    ("female" ∈ ["male", "female", "other", "unknown"]) ∧
    errOf (insertPatient emptyState
      { uid := "u", name := some "p", gender := some "nonbinary" }) =
        some .validationError ∧
    saveOk (insertPatient emptyState
      { newPatient 5 (some "p") with gender := some "male" }) = true ∧
    saveOk (insertTreatment emptyState
      { newTreatment 6 (some "t") with status := some "on-hold" }) = true :=
  ⟨claim_C8_theorem.1 c8State (by decide) c8p (by decide) "female" rfl,
   claim_C8_theorem.2.2.1 emptyState
     { uid := "u", name := some "p", gender := some "nonbinary" }
     "nonbinary" rfl (by decide) (by decide),
   claim_C8_theorem.2.2.2.2.1 emptyState 5 "p" "male" (by decide) (by decide)
     (by decide) (by intro r hr; cases hr),
   claim_C8_theorem.2.2.2.2.2 emptyState 6 "t" "on-hold" (by decide)
     (by decide) (by decide) (by intro r hr; cases hr)⟩
